import Mathlib

/-!
Shallow embedding of the CI/CD pipeline health dashboard core
(`backend/src/simple-server.js` MetricsCollector and
`backend/src/services/AlertEngine.js`), together with theorems checking
the natural-language specification against it.

Modelling conventions:
* JavaScript `Date` values are `Nat` milliseconds since the epoch;
  durations from payloads are seconds (the code multiplies by 1000 via
  `moment(...).add(duration, 'seconds')`).
* Absent / `undefined` fields are `Option.none`; the JS `x || d` default
  idiom is `jsOr` / `jsOrNat` (`0` and `none` are falsy).
* The Mongo collections are association lists; `findOne`-then-update is a
  first-match replacement, `findOneAndUpdate {upsert}` is
  replace-first-match-or-append.
* All numeric computation is exact (`Nat`/`ℚ`); the JS engine uses IEEE
  doubles, whose rounding is not observable at the integer scales and the
  ratio comparisons the claims are about.
-/

namespace CICD

/-- ASCII upper-casing of one character, as JS `toUpperCase` acts on the
Basic Latin range (this is also Lean core `Char.toUpper`). -/
def charUp (c : Char) : Char := Char.toUpper c

/-- ASCII lower-casing of one character, as JS `toLowerCase` acts on the
Basic Latin range (this is also Lean core `Char.toLower`). -/
def charDown (c : Char) : Char := Char.toLower c

/-- JS `s.toUpperCase()` restricted to ASCII, applied characterwise. -/
def toUpperStr (s : String) : String := ⟨s.data.map charUp⟩

/-- JS `s.toLowerCase()` restricted to ASCII, applied characterwise. -/
def toLowerStr (s : String) : String := ⟨s.data.map charDown⟩

/-- JS `a || b` on two possibly-absent values (absent is falsy). -/
def jsOr (a b : Option α) : Option α := match a with
  | none => b
  | some x => some x

/-- JS `n || d` where `n` is a possibly-absent number: `undefined`, `null`
and `0` are all falsy and select the default. -/
def jsOrNat (n : Option Nat) (d : Nat) : Nat := match n with
  | none => d
  | some 0 => d
  | some k => k

/-- JS truthiness filter for a numeric `||` chain: a value that parsed
to `0` is falsy, so the chain falls through past it. -/
def jsNum (n : Option Nat) : Option Nat := match n with
  | some 0 => none
  | o => o

/-- The `statusMap` object literal of `MetricsCollector.normalizeStatus`. -/
def statusMap : List (String × String) :=
  [("SUCCESS", "success"), ("PASSED", "success"), ("COMPLETED", "success"),
   ("FAILURE", "failure"), ("FAILED", "failure"), ("ERROR", "failure"),
   ("ABORTED", "aborted"), ("CANCELLED", "aborted"),
   ("UNSTABLE", "unstable"),
   ("RUNNING", "running"), ("IN_PROGRESS", "running"),
   ("PENDING", "pending"), ("QUEUED", "pending")]

/-- `MetricsCollector.normalizeStatus`: absent status is `"unknown"`;
otherwise look the upper-cased status up in `statusMap` and fall back to
the lower-cased input. -/
def normalizeStatus : Option String → String
  | none => "unknown"
  | some s =>
    match statusMap.lookup (toUpperStr s) with
    | some v => v
    | none => toLowerStr s

/-- Normalized test-result summary (`MetricsCollector.normalizeTestResults`
output shape). -/
structure TestResults where
  total : Nat
  passed : Nat
  failed : Nat
  skipped : Nat
deriving DecidableEq

/-- Raw `testResults` object of a webhook payload (fields already passed
through `parseInt`; `none` is absent/NaN). -/
structure RawTestResults where
  total : Option Nat
  passed : Option Nat
  success : Option Nat
  failed : Option Nat
  failure : Option Nat
  skipped : Option Nat
  skip : Option Nat
deriving DecidableEq

/-- `MetricsCollector.normalizeTestResults`. -/
def normalizeTestResults : Option RawTestResults → TestResults
  | none => { total := 0, passed := 0, failed := 0, skipped := 0 }
  | some t =>
    { total := t.total.getD 0
      passed := (jsOr (jsNum t.passed) (jsNum t.success)).getD 0
      failed := (jsOr (jsNum t.failed) (jsNum t.failure)).getD 0
      skipped := (jsOr (jsNum t.skipped) (jsNum t.skip)).getD 0 }

/-- A raw webhook payload, restricted to the fields the claims exercise.
`none` models an absent (or falsy) field; timestamps are ms, the
`duration` is the `parseInt` result in seconds (`none` for absent/NaN).
The unmodelled passthrough fields (`repositoryUrl`, `commit`, `stages`,
`logs`, `artifacts`, `metadata`) play no role in any claim. -/
structure RawPayload where
  buildId : Option String
  id : Option String
  projectName : Option String
  job_name : Option String
  branch : Option String
  git_branch : Option String
  commit : Option String
  status : Option String
  duration : Option Nat
  startTime : Option Nat
  endTime : Option Nat
  buildNumber : Option Nat
  build_number : Option Nat
  triggeredBy : Option String
  triggered_by : Option String
  environment : Option String
  testResults : Option RawTestResults
deriving DecidableEq

/-- A canonical Build record as produced by the Normalizer and stored by
the Aggregator. -/
structure Build where
  buildId : String
  projectName : String
  branch : String
  commit : String
  status : String
  duration : Nat
  startTime : Nat
  endTime : Nat
  buildNumber : Nat
  triggeredBy : String
  environment : String
  testResults : TestResults
deriving DecidableEq

/-- `MetricsCollector.normalizeBuildData` (the fields the claims use).
`now` is the clock value `new Date()` observed during processing. The
final `if` is the source's "Calculate end time if not provided" step:
it fires only when the payload has no end time, the (always truthy)
start time is set and the normalized duration is truthy, i.e. nonzero. -/
def normalizeBuildData (p : RawPayload) (now : Nat) : Build :=
  let duration := p.duration.getD 0
  let startTime := p.startTime.getD now
  let endTime0 := p.endTime.getD now
  { buildId := (jsOr p.buildId p.id).getD ""
    projectName := (jsOr p.projectName p.job_name).getD ""
    branch := (jsOr (jsOr p.branch p.git_branch) (some "main")).getD ""
    commit := p.commit.getD ""
    status := normalizeStatus p.status
    duration := duration
    startTime := startTime
    endTime := if p.endTime = none ∧ duration ≠ 0
               then startTime + duration * 1000 else endTime0
    buildNumber := (jsOr (jsNum p.buildNumber) (jsNum p.build_number)).getD 1
    triggeredBy := (jsOr (jsOr p.triggeredBy p.triggered_by) (some "system")).getD ""
    environment := (jsOr p.environment (some "development")).getD ""
    testResults := normalizeTestResults p.testResults }

/-- The `(projectName, buildId)` identity the Aggregator upserts Builds on. -/
def buildKey (b : Build) : String × String := (b.projectName, b.buildId)

/-- `MetricsCollector.saveBuild`: `Build.findOne({buildId, projectName})`
followed by `Object.assign` onto the existing record (which, since the
normalized payload carries every field, replaces the record's fields),
or insertion of a new record when no match exists. -/
def saveBuild : List Build → Build → List Build
  | [], b => [b]
  | r :: rest, b =>
    if r.buildId = b.buildId ∧ r.projectName = b.projectName
    then b :: rest
    else r :: saveBuild rest b

/-- Number of stored Build records with a given `(projectName, buildId)` key. -/
def countKey (db : List Build) (k : String × String) : Nat :=
  db.countP (fun r => decide (buildKey r = k))

/-- Aggregate values of one rolling-window metrics computation.

Modelled from the spec: `calculateMetrics` lives in
`backend/src/utils/metricsCalculator.js`, which is not in the sources —
only its caller is.  Spec §4.2: "compute aggregate (count, successCount,
failureCount, successRate = successCount/count×100 or 0 if count=0,
average/max/min duration across the set)". -/
structure MetricStats where
  totalBuilds : Nat
  successfulBuilds : Nat
  failedBuilds : Nat
  successRate : ℚ
  averageBuildTime : ℚ
  maxBuildTime : Nat
  minBuildTime : Nat
deriving DecidableEq

/-- Modelled from the spec: the aggregate computation
`calculateMetrics(builds)` of `utils/metricsCalculator.js` (absent from
the sources), following spec §4.2 word for word; `average/max/min` over
an empty set are taken as `0`, which §4.2 leaves unconstrained. -/
def calculateMetrics (builds : List Build) : MetricStats :=
  let total := builds.length
  let succ := (builds.filter (fun b => b.status = "success")).length
  let fail := (builds.filter (fun b => b.status = "failure")).length
  { totalBuilds := total
    successfulBuilds := succ
    failedBuilds := fail
    successRate := if total = 0 then 0 else (succ : ℚ) / total * 100
    averageBuildTime :=
      if total = 0 then 0
      else ((builds.map (fun b => b.duration)).sum : ℚ) / total
    maxBuildTime := (builds.map (fun b => b.duration)).foldr max 0
    minBuildTime := match builds.map (fun b => b.duration) with
      | [] => 0
      | d :: ds => ds.foldr min d }

/-- A stored Metric document (keys plus the aggregate payload). -/
structure Metric where
  projectName : String
  period : String
  timestamp : Nat
  stats : MetricStats
deriving DecidableEq

/-- `getStartTimeForPeriod` of `MetricsCollector` (also duplicated in
`AlertEngine`): `moment().subtract(...)` per period tag, defaulting to
24 hours. -/
def getStartTimeForPeriod (period : String) (now : Nat) : Nat :=
  if period = "1h" then now - 3600000
  else if period = "24h" then now - 86400000
  else if period = "7d" then now - 604800000
  else if period = "30d" then now - 2592000000
  else now - 86400000

/-- The query `Build.find({projectName, endTime: {$gte: since}})` run by
both the Aggregator's period recomputation and the error-rate rule. -/
def recentBuilds (db : List Build) (proj : String) (since : Nat) : List Build :=
  db.filter (fun b => b.projectName = proj ∧ b.endTime ≥ since)

/-- Start of the clock hour containing `t` (`moment().startOf('hour')`),
in ms. -/
def startOfHour (t : Nat) : Nat := t / 3600000 * 3600000

/-- The Metric upsert's match test: same project and period, and a stored
timestamp inside `[$gte startOf('hour'), $lt endOf('hour')]` of the clock
hour of `now`.  `moment().endOf('hour')` is `:59:59.999`, i.e. the start
of the hour plus 3599999 ms, and `$lt` keeps it exclusive. -/
def metricWindowMatch (r : Metric) (proj period : String) (now : Nat) : Bool :=
  decide (r.projectName = proj ∧ r.period = period ∧
    startOfHour now ≤ r.timestamp ∧ r.timestamp < startOfHour now + 3599999)

/-- `Metric.findOneAndUpdate(query, metricData, {upsert: true})`: replace
the first document matching the hour-bucket query, or append the new
document when none matches. -/
def upsertMetric : List Metric → Metric → Nat → List Metric
  | [], m, _ => [m]
  | r :: rest, m, now =>
    if metricWindowMatch r m.projectName m.period now
    then m :: rest
    else r :: upsertMetric rest m now

/-- `MetricsCollector.calculateMetricsForPeriod`: fetch the project's
builds whose end time falls inside the period window, bail out when there
are none, and upsert the aggregate as the current hour's Metric document
(its stored `timestamp` is `new Date()` = `now`). -/
def calculateMetricsForPeriod (db : List Build) (metrics : List Metric)
    (bd : Build) (period : String) (now : Nat) : List Metric :=
  let builds := recentBuilds db bd.projectName (getStartTimeForPeriod period now)
  if builds.isEmpty then metrics
  else upsertMetric metrics
    { projectName := bd.projectName, period := period, timestamp := now
      stats := calculateMetrics builds } now

/-- A sequence of metric recomputations (build, period tag, clock value),
folded over the Metric store. -/
def runRecomputations (db : List Build) (metrics : List Metric)
    (ops : List (Build × String × Nat)) : List Metric :=
  ops.foldl (fun ms op => calculateMetricsForPeriod db ms op.1 op.2.1 op.2.2) metrics

/-- The `(project, period, hour-aligned bucket)` identity of a Metric
document. -/
def metricBucket (m : Metric) : String × String × Nat :=
  (m.projectName, m.period, m.timestamp / 3600000)

/-- Number of stored Metric documents in a given
`(project, period, hour bucket)`. -/
def countBucket (ms : List Metric) (k : String × String × Nat) : Nat :=
  ms.countP (fun r => decide (metricBucket r = k))

/-- `MetricsCollector.getIntervalsForPeriod`: the fixed sub-interval grid
(`1h`→12×5min, `24h`→24×1h, `7d`→7×1d, `30d`→30×1d, default 24×1h),
emitted oldest first, each as `(start, end)` in ms. -/
def getIntervalsForPeriod (timeRange : String) (now : Nat) : List (Nat × Nat) :=
  let p : Nat × Nat :=
    if timeRange = "1h" then (5, 12)
    else if timeRange = "24h" then (60, 24)
    else if timeRange = "7d" then (1440, 7)
    else if timeRange = "30d" then (1440, 30)
    else (60, 24)
  (List.range p.2).reverse.map (fun i =>
    let e := now - i * p.1 * 60000
    (e - p.1 * 60000, e))

/-- One entry of the `successRate` trend series pushed by
`MetricsCollector.getTrendData`. -/
structure TrendPoint where
  timestamp : Nat
  successRate : ℚ
  totalBuilds : Nat
  successfulBuilds : Nat
  failedBuilds : Nat
deriving DecidableEq

/-- The builds selected for one trend sub-interval: the base query's
optional project filter plus `endTime ∈ [$gte start, $lt end)`. -/
def intervalBuilds (db : List Build) (proj : Option String)
    (iv : Nat × Nat) : List Build :=
  db.filter (fun b =>
    (match proj with | none => true | some p => decide (b.projectName = p)) &&
    decide (iv.1 ≤ b.endTime) && decide (b.endTime < iv.2))

/-- The `trendData.successRate` series built by
`MetricsCollector.getTrendData`: one point per sub-interval, carrying the
interval start and the aggregate of the builds inside the interval. -/
def trendSuccessRate (db : List Build) (proj : Option String)
    (timeRange : String) (now : Nat) : List TrendPoint :=
  (getIntervalsForPeriod timeRange now).map (fun iv =>
    let m := calculateMetrics (intervalBuilds db proj iv)
    { timestamp := iv.1
      successRate := m.successRate
      totalBuilds := m.totalBuilds
      successfulBuilds := m.successfulBuilds
      failedBuilds := m.failedBuilds })

/-- Parameter record of an alert-rule condition; each field is absent
unless the stored rule supplies it (the source reads them with `||` or
destructuring defaults). -/
structure ConditionParams where
  projects : Option (List String)
  branches : Option (List String)
  environments : Option (List String)
  thresholdMinutes : Option Nat
  timeWindowMinutes : Option Nat
  errorRateThreshold : Option ℚ
  minimumBuilds : Option Nat
  consecutiveCount : Option Nat
  failureRateThreshold : Option ℚ
deriving DecidableEq

/-- An alert-rule condition: a string tag plus its parameters. -/
structure Condition where
  type : String
  parameters : ConditionParams
deriving DecidableEq

/-- One notification channel attached to a rule. -/
structure Channel where
  type : String
  configuration : String
deriving DecidableEq

/-- An enabled alert rule as cached by the `AlertEngine`. -/
structure Rule where
  id : String
  name : String
  severity : String
  messageTemplate : Option String
  cooldownMinutes : Option Nat
  channels : List Channel
  condition : Condition
deriving DecidableEq

/-- A persisted Alert record (`AlertEngine.createAlert` shape). -/
structure Alert where
  ruleId : String
  ruleName : String
  severity : String
  message : String
  projectName : String
  buildNumber : Nat
  status : String
  timestamp : Nat
deriving DecidableEq

/-- The Build store as the rule evaluator sees it; a query either returns
records or throws (models `await Build.find(...)` rejecting). -/
structure BuildStore where
  findByProjectSince : String → Nat → Except String (List Build)
  findRecentByBranch : String → String → Nat → Except String (List Build)

/-- Insertion into a list kept descending by build number. -/
def insertDesc (b : Build) : List Build → List Build
  | [] => [b]
  | x :: xs => if x.buildNumber < b.buildNumber then b :: x :: xs else x :: insertDesc b xs

/-- Sort builds by build number, descending
(`.sort({buildNumber: -1})`). -/
def sortByBuildNumberDesc : List Build → List Build
  | [] => []
  | x :: xs => insertDesc x (sortByBuildNumberDesc xs)

/-- The healthy in-memory store over a Build list: both queries succeed
and return exactly the records the Mongo queries select. -/
def listStore (db : List Build) : BuildStore :=
  { findByProjectSince := fun p t => .ok (recentBuilds db p t)
    findRecentByBranch := fun p br n =>
      .ok ((sortByBuildNumberDesc
        (db.filter (fun b => b.projectName = p ∧ b.branch = br))).take n) }

/-- `AlertEngine.evaluateBuildFailure`: failed status plus three optional
membership filters, an empty filter list acting as a wildcard. -/
def evaluateBuildFailure (cond : Condition) (bd : Build) : Bool :=
  let tp := cond.parameters.projects.getD []
  let tb := cond.parameters.branches.getD []
  let te := cond.parameters.environments.getD []
  if bd.status ≠ "failure" then false
  else if tp ≠ [] ∧ bd.projectName ∉ tp then false
  else if tb ≠ [] ∧ bd.branch ∉ tb then false
  else if te ≠ [] ∧ bd.environment ∉ te then false
  else true

/-- `AlertEngine.evaluateDurationThreshold`: duration in minutes strictly
above the threshold (default 30, applied by `||`). -/
def evaluateDurationThreshold (cond : Condition) (bd : Build) : Bool :=
  decide ((bd.duration : ℚ) / 60 > (jsOrNat cond.parameters.thresholdMinutes 30 : ℚ))

/-- `AlertEngine.evaluateErrorRate`: fetch the project's builds inside the
time window; below `minimumBuilds` never match, otherwise match when the
failure percentage reaches the threshold. -/
def evaluateErrorRate (store : BuildStore) (cond : Condition) (bd : Build)
    (now : Nat) : Except String Bool :=
  let w := cond.parameters.timeWindowMinutes.getD 60
  let th := cond.parameters.errorRateThreshold.getD 50
  let minB := cond.parameters.minimumBuilds.getD 3
  match store.findByProjectSince bd.projectName (now - w * 60000) with
  | .error e => .error e
  | .ok recent =>
    if recent.length < minB then .ok false
    else
      let failed := (recent.filter (fun b => b.status = "failure")).length
      .ok (decide ((failed : ℚ) / recent.length * 100 ≥ th))

/-- `AlertEngine.evaluateConsecutiveFailures`: the current build failed
and the most recent `consecutiveCount` builds of `(project, branch)` are
all failures. -/
def evaluateConsecutiveFailures (store : BuildStore) (cond : Condition)
    (bd : Build) : Except String Bool :=
  let cnt := cond.parameters.consecutiveCount.getD 3
  if bd.status ≠ "failure" then .ok false
  else match store.findRecentByBranch bd.projectName bd.branch cnt with
  | .error e => .error e
  | .ok recent =>
    if recent.length < cnt then .ok false
    else .ok (recent.all (fun b => decide (b.status = "failure")))

/-- `AlertEngine.evaluateTestFailureRate`: no match without test results;
otherwise match when the failed-test percentage reaches the threshold
(default 10). -/
def evaluateTestFailureRate (cond : Condition) (bd : Build) : Bool :=
  let th := cond.parameters.failureRateThreshold.getD 10
  if bd.testResults.total = 0 then false
  else decide ((bd.testResults.failed : ℚ) / bd.testResults.total * 100 ≥ th)

/-- `AlertEngine.evaluateDeploymentFailure`: failed status in one of the
target environments (default `production`/`staging`, applied by `||`). -/
def evaluateDeploymentFailure (cond : Condition) (bd : Build) : Bool :=
  let te := cond.parameters.environments.getD ["production", "staging"]
  decide (bd.status = "failure" ∧ bd.environment ∈ te)

/-- `AlertEngine.evaluateRule`: dispatch on the condition tag; an unknown
tag is logged (`logger.warn`) and reported as not matching. -/
def evaluateRule (store : BuildStore) (rule : Rule) (bd : Build)
    (now : Nat) : Except String Bool :=
  let t := rule.condition.type
  if t = "build_failure" then .ok (evaluateBuildFailure rule.condition bd)
  else if t = "duration_threshold" then .ok (evaluateDurationThreshold rule.condition bd)
  else if t = "error_rate" then evaluateErrorRate store rule.condition bd now
  else if t = "consecutive_failures" then evaluateConsecutiveFailures store rule.condition bd
  else if t = "test_failure_rate" then .ok (evaluateTestFailureRate rule.condition bd)
  else if t = "deployment_failure" then .ok (evaluateDeploymentFailure rule.condition bd)
  else .ok false

/-- Replace every occurrence of `pat` in the tail list, left to right;
`fuel` bounds the recursion and is instantiated with the subject's
length, which one-character steps never exhaust. -/
def replaceAllAux (pat rep : List Char) : Nat → List Char → List Char
  | _, [] => []
  | 0, s => s
  | fuel + 1, c :: rest =>
    if pat ≠ [] ∧ (c :: rest).take pat.length = pat
    then rep ++ replaceAllAux pat rep fuel ((c :: rest).drop pat.length)
    else c :: replaceAllAux pat rep fuel rest

/-- JS `s.replace(/pat/g, rep)` for a literal pattern. -/
def replaceAllStr (s pat rep : String) : String :=
  ⟨replaceAllAux pat.data rep.data s.data.length s.data⟩

/-- `AlertEngine.formatMessage`: default message without a template,
otherwise global substitution of the seven placeholders; `{duration}` is
rendered as rounded minutes with an `m` suffix. -/
def formatMessage (template : Option String) (bd : Build) : String :=
  match template with
  | none => "Build " ++ bd.projectName ++ "#" ++ toString bd.buildNumber ++ " failed"
  | some t =>
    let r1 := replaceAllStr t "\x7bprojectName\x7d" bd.projectName
    let r2 := replaceAllStr r1 "\x7bbuildNumber\x7d" (toString bd.buildNumber)
    let r3 := replaceAllStr r2 "\x7bstatus\x7d" bd.status
    let r4 := replaceAllStr r3 "\x7bbranch\x7d" bd.branch
    let r5 := replaceAllStr r4 "\x7bduration\x7d" (toString ((bd.duration + 30) / 60) ++ "m")
    let r6 := replaceAllStr r5 "\x7benvironment\x7d" bd.environment
    replaceAllStr r6 "\x7btriggeredBy\x7d" bd.triggeredBy

/-- `AlertEngine.createAlert`: the persisted Alert record for a rule match,
created with status `active` at the dispatch clock value. -/
def createAlert (rule : Rule) (bd : Build) (now : Nat) : Alert :=
  { ruleId := rule.id
    ruleName := rule.name
    severity := rule.severity
    message := formatMessage rule.messageTemplate bd
    projectName := bd.projectName
    buildNumber := bd.buildNumber
    status := "active"
    timestamp := now }

/-- The notification transports (`NotificationService`), each of which may
throw; out-of-core collaborators per the spec. -/
structure NotifService where
  sendSlackAlert : Alert → String → Except String Unit
  sendEmailAlert : Alert → String → Except String Unit
  sendWebhookAlert : Alert → String → Except String Unit

/-- One iteration of the `sendNotifications` channel loop before its
`catch`: dispatch on the channel type; an unknown type only logs. -/
def sendChannel (svc : NotifService) (alert : Alert) (ch : Channel) :
    Except String Unit :=
  if ch.type = "slack" then svc.sendSlackAlert alert ch.configuration
  else if ch.type = "email" then svc.sendEmailAlert alert ch.configuration
  else if ch.type = "webhook" then svc.sendWebhookAlert alert ch.configuration
  else .ok ()

/-- The error swallowed by the per-channel `catch` (`none` when the send
succeeded). -/
def caughtError : Except String Unit → Option String
  | .ok _ => none
  | .error e => some e

/-- A delivery attempt on one channel, with the caught outcome. -/
structure NotifAttempt where
  channelType : String
  configuration : String
  outcome : Option String
deriving DecidableEq

/-- `AlertEngine.sendNotifications`: attempt every configured channel in
order; each failure is caught and logged and the loop continues. -/
def sendNotifications (svc : NotifService) (alert : Alert) (rule : Rule) :
    List NotifAttempt :=
  rule.channels.map (fun ch =>
    { channelType := ch.type
      configuration := ch.configuration
      outcome := caughtError (sendChannel svc alert ch) })

/-- Lookup in the in-memory cooldown map (`Map.get`). -/
def lookupCd : List (String × Nat) → String → Option Nat
  | [], _ => none
  | (k, v) :: rest, key => if k = key then some v else lookupCd rest key

/-- Update of the in-memory cooldown map (`Map.set`). -/
def setCd : List (String × Nat) → String → Nat → List (String × Nat)
  | [], k, v => [(k, v)]
  | (k', v') :: rest, k, v =>
    if k' = k then (k, v) :: rest else (k', v') :: setCd rest k v

/-- The dispatcher's observable state: persisted Alerts, the in-memory
cooldown map keyed by the string `ruleId + "-" + projectName`, and the
log of notification delivery attempts. -/
structure EngineState where
  alerts : List Alert
  cooldowns : List (String × Nat)
  attempts : List NotifAttempt
deriving DecidableEq

/-- `AlertEngine.triggerAlert`: suppress when the `(rule, project)` key
fired less than the effective cooldown ago (`rule.cooldownMinutes || 15`,
with `moment().diff(last, 'minutes')` truncating to whole minutes);
otherwise persist the Alert, attempt every channel, and set the cooldown
to `now` regardless of delivery outcomes. -/
def triggerAlert (svc : NotifService) (rule : Rule) (bd : Build)
    (st : EngineState) (now : Nat) : EngineState :=
  let key := rule.id ++ "-" ++ bd.projectName
  let cd := jsOrNat rule.cooldownMinutes 15
  let fire : Unit → EngineState := fun _ =>
    let alert := createAlert rule bd now
    { alerts := st.alerts ++ [alert]
      attempts := st.attempts ++ sendNotifications svc alert rule
      cooldowns := setCd st.cooldowns key now }
  match lookupCd st.cooldowns key with
  | some last => if (now - last) / 60000 < cd then st else fire ()
  | none => fire ()

/-- `AlertEngine.evaluateRules`: fold the cached rules over the state; a
rule whose evaluation throws is caught and logged and contributes
nothing, a matching rule goes through `triggerAlert`. -/
def processRules (store : BuildStore) (svc : NotifService)
    (rules : List Rule) (bd : Build) (st : EngineState) (now : Nat) :
    EngineState :=
  rules.foldl (fun s rule =>
    match evaluateRule store rule bd now with
    | .error _ => s
    | .ok true => triggerAlert svc rule bd s now
    | .ok false => s) st

/-- Convenience constructor for concrete Build records in examples. -/
def mkBuild (idv proj branchv statusv : String) (num endT : Nat) : Build :=
  { buildId := idv, projectName := proj, branch := branchv, commit := ""
    status := statusv, duration := 60, startTime := 0, endTime := endT
    buildNumber := num, triggeredBy := "system", environment := "production"
    testResults := ⟨0, 0, 0, 0⟩ }

/-- A concrete build used in witnesses. -/
def bX : Build := mkBuild "42" "api" "main" "failure" 42 120000

/-- A concrete build of project `p` ending just inside hour 0. -/
def b4 : Build := mkBuild "b" "p" "main" "success" 1 3599000

/-- A payload with no end time and duration 0. -/
def p9 : RawPayload :=
  { buildId := some "b1", id := none, projectName := some "p", job_name := none
    branch := none, git_branch := none, commit := none, status := some "SUCCESS"
    duration := some 0, startTime := some 0, endTime := none
    buildNumber := none, build_number := none, triggeredBy := none
    triggered_by := none, environment := none, testResults := none }

/-- A payload with no end time and a nonzero duration. -/
def p9w : RawPayload :=
  { buildId := some "b2", id := none, projectName := some "p", job_name := none
    branch := none, git_branch := none, commit := none, status := some "SUCCESS"
    duration := some 7, startTime := some 500, endTime := none
    buildNumber := none, build_number := none, triggeredBy := none
    triggered_by := none, environment := none, testResults := none }

/-- Parameter record with every field absent. -/
def emptyParams : ConditionParams :=
  { projects := none, branches := none, environments := none
    thresholdMinutes := none, timeWindowMinutes := none
    errorRateThreshold := none, minimumBuilds := none
    consecutiveCount := none, failureRateThreshold := none }

/-- The spec's example error-rate condition:
window 60 min, threshold 50%, minimum 3 builds. -/
def cond6 : Condition :=
  { type := "error_rate"
    parameters := { emptyParams with
      timeWindowMinutes := some 60
      errorRateThreshold := some 50
      minimumBuilds := some 3 } }

/-- Window with 2 failures out of 3 builds. -/
def db6a : List Build :=
  [mkBuild "1" "api" "main" "failure" 1 4000000,
   mkBuild "2" "api" "main" "failure" 2 4100000,
   mkBuild "3" "api" "main" "success" 3 4200000]

/-- Window with 1 failure out of 5 builds. -/
def db6b : List Build :=
  [mkBuild "1" "api" "main" "failure" 1 4000000,
   mkBuild "2" "api" "main" "success" 2 4100000,
   mkBuild "3" "api" "main" "success" 3 4200000,
   mkBuild "4" "api" "main" "success" 4 4300000,
   mkBuild "5" "api" "main" "success" 5 4400000]

/-- Window with 1 failure out of 2 builds (below the minimum). -/
def db6c : List Build :=
  [mkBuild "1" "api" "main" "failure" 1 4000000,
   mkBuild "2" "api" "main" "success" 2 4100000]

/-- The build triggering the example error-rate evaluations. -/
def bd6 : Build := mkBuild "9" "api" "main" "failure" 9 7100000

/-- An error-rate rule over `cond6`. -/
def ruleER : Rule :=
  { id := "r-er", name := "error rate", severity := "critical"
    messageTemplate := none, cooldownMinutes := some 15
    channels := [⟨"slack", "#ci"⟩], condition := cond6 }

/-- A deployment-failure rule with default parameters. -/
def ruleDF : Rule :=
  { id := "r-df", name := "deploy failure", severity := "critical"
    messageTemplate := none, cooldownMinutes := some 15
    channels := [⟨"slack", "#ci"⟩]
    condition := { type := "deployment_failure", parameters := emptyParams } }

/-- A build-failure rule with two channels. -/
def ruleSl : Rule :=
  { id := "r-bf", name := "build failure", severity := "warning"
    messageTemplate := none, cooldownMinutes := some 15
    channels := [⟨"slack", "#ci"⟩, ⟨"email", "ops"⟩]
    condition := { type := "build_failure", parameters := emptyParams } }

/-- A notification service whose every transport succeeds. -/
def svcOk : NotifService :=
  { sendSlackAlert := fun _ _ => .ok ()
    sendEmailAlert := fun _ _ => .ok ()
    sendWebhookAlert := fun _ _ => .ok () }

/-- A notification service whose every transport throws. -/
def svcFail : NotifService :=
  { sendSlackAlert := fun _ _ => .error "network down"
    sendEmailAlert := fun _ _ => .error "network down"
    sendWebhookAlert := fun _ _ => .error "network down" }

/-- A build store whose every query throws. -/
def errStore : BuildStore :=
  { findByProjectSince := fun _ _ => .error "store unavailable"
    findRecentByBranch := fun _ _ _ => .error "store unavailable" }

/-- The dispatcher's empty starting state. -/
def st0 : EngineState := { alerts := [], cooldowns := [], attempts := [] }

/-- The Metric-store invariant of spec §3: at most one document per
`(project, period, hour bucket)`; the strengthening that no stored
timestamp sits in the final millisecond of its hour is what keeps every
stored document reachable by the upsert's `$lt endOf('hour')` window. -/
def MetricInv (ms : List Metric) : Prop :=
  (∀ k, countBucket ms k ≤ 1) ∧ ∀ m ∈ ms, m.timestamp % 3600000 < 3599999

theorem toNat_ofNat_lt {n : Nat} (h : n < 55296) : (Char.ofNat n).toNat = n := by
  have hv : Nat.isValidChar n := Or.inl h
  simp [Char.ofNat, hv, Char.ofNatAux, Char.toNat]
  rfl

theorem charUp_charDown (c : Char) : charUp (charDown c) = charUp c := by
  unfold charUp charDown Char.toLower Char.toUpper
  by_cases h : 65 ≤ c.toNat ∧ c.toNat ≤ 90
  · rw [if_pos h, toNat_ofNat_lt (by omega), if_pos (by omega), if_neg (by omega)]
    have h32 : c.toNat + 32 - 32 = c.toNat := by omega
    rw [h32, Char.ofNat_toNat]
  · rw [if_neg h]

theorem charDown_charDown (c : Char) : charDown (charDown c) = charDown c := by
  unfold charDown Char.toLower
  by_cases h : 65 ≤ c.toNat ∧ c.toNat ≤ 90
  · rw [if_pos h, toNat_ofNat_lt (by omega), if_neg (by omega)]
  · rw [if_neg h, if_neg h]

theorem toUpperStr_toLowerStr (s : String) : toUpperStr (toLowerStr s) = toUpperStr s := by
  simp [toUpperStr, toLowerStr, Function.comp_def, charUp_charDown]

theorem toLowerStr_toLowerStr (s : String) : toLowerStr (toLowerStr s) = toLowerStr s := by
  simp [toLowerStr, Function.comp_def, charDown_charDown]

theorem lookup_none_of_not_mem {l : List (String × String)} {k : String}
    (h : k ∉ l.map Prod.fst) : l.lookup k = none := by
  induction l with
  | nil => rfl
  | cons p rest ih =>
    obtain ⟨a, b⟩ := p
    simp only [List.map_cons, List.mem_cons, not_or] at h
    have hne : (k == a) = false := beq_eq_false_iff_ne.mpr h.1
    simp [List.lookup, hne, ih h.2]

theorem normalizeStatus_mapped {s v : String}
    (h : statusMap.lookup (toUpperStr s) = some v) :
    normalizeStatus (some s) = v := by
  simp [normalizeStatus, h]

/-- C3: status normalization is case-insensitive and many-to-one over the
documented vocabulary; an unrecognized status is lower-cased and passed
through verbatim, and only a wholly absent status becomes `unknown`. -/
theorem C3_normalizeStatus_spec :
    normalizeStatus none = "unknown"
    ∧ (∀ s, normalizeStatus (some s) = normalizeStatus (some (toLowerStr s)))
    ∧ (∀ s, toUpperStr s ∈ (["SUCCESS", "PASSED", "COMPLETED"] : List String) →
        normalizeStatus (some s) = "success")
    ∧ (∀ s, toUpperStr s ∈ (["FAILURE", "FAILED", "ERROR"] : List String) →
        normalizeStatus (some s) = "failure")
    ∧ (∀ s, toUpperStr s ∈ (["ABORTED", "CANCELLED"] : List String) →
        normalizeStatus (some s) = "aborted")
    ∧ (∀ s, toUpperStr s = "UNSTABLE" → normalizeStatus (some s) = "unstable")
    ∧ (∀ s, toUpperStr s ∈ (["RUNNING", "IN_PROGRESS"] : List String) →
        normalizeStatus (some s) = "running")
    ∧ (∀ s, toUpperStr s ∈ (["PENDING", "QUEUED"] : List String) →
        normalizeStatus (some s) = "pending")
    ∧ (∀ s, toUpperStr s ∉ statusMap.map Prod.fst →
        normalizeStatus (some s) = toLowerStr s)
    ∧ normalizeStatus (some "BANANA") = "banana" := by
  refine ⟨rfl, ?_, ?_, ?_, ?_, ?_, ?_, ?_, ?_, by decide⟩
  · intro s
    simp only [normalizeStatus, toUpperStr_toLowerStr, toLowerStr_toLowerStr]
  · intro s h
    simp only [List.mem_cons, List.not_mem_nil, or_false] at h
    rcases h with h | h | h <;> (apply normalizeStatus_mapped; rw [h]; decide)
  · intro s h
    simp only [List.mem_cons, List.not_mem_nil, or_false] at h
    rcases h with h | h | h <;> (apply normalizeStatus_mapped; rw [h]; decide)
  · intro s h
    simp only [List.mem_cons, List.not_mem_nil, or_false] at h
    rcases h with h | h <;> (apply normalizeStatus_mapped; rw [h]; decide)
  · intro s h
    apply normalizeStatus_mapped; rw [h]; decide
  · intro s h
    simp only [List.mem_cons, List.not_mem_nil, or_false] at h
    rcases h with h | h <;> (apply normalizeStatus_mapped; rw [h]; decide)
  · intro s h
    simp only [List.mem_cons, List.not_mem_nil, or_false] at h
    rcases h with h | h <;> (apply normalizeStatus_mapped; rw [h]; decide)
  · intro s h
    simp [normalizeStatus, lookup_none_of_not_mem h]

theorem C3_witness :
    toUpperStr "Failed" ∈ (["FAILURE", "FAILED", "ERROR"] : List String)
    ∧ normalizeStatus (some "Failed") = "failure" :=
  ⟨by decide, C3_normalizeStatus_spec.2.2.2.1 "Failed" (by decide)⟩

/-- C9 as stated is false: with no end time and a zero (or absent)
duration the derivation is skipped by the truthiness guard, and the end
time stays at the processing clock value instead of the start time. -/
theorem C9_counterexample :
    ¬ ((normalizeBuildData p9 1000).endTime =
        (normalizeBuildData p9 1000).startTime +
          (normalizeBuildData p9 1000).duration * 1000) := by
  decide

/-- C9 amended: for a payload without an end time, the normalized end
time is start time + duration (seconds) whenever the normalized duration
is nonzero; when the duration is zero or absent the guard is falsy and
the end time is the processing clock value. -/
theorem C9_endTime_derivation (p : RawPayload) (now : Nat)
    (h : p.endTime = none) :
    ((normalizeBuildData p now).duration ≠ 0 →
      (normalizeBuildData p now).endTime =
        (normalizeBuildData p now).startTime +
          (normalizeBuildData p now).duration * 1000)
    ∧ ((normalizeBuildData p now).duration = 0 →
      (normalizeBuildData p now).endTime = now) := by
  constructor <;> intro hd <;>
    simp only [normalizeBuildData] at hd ⊢ <;>
    simp [h, hd]

theorem C9_witness :
    p9w.endTime = none
    ∧ (normalizeBuildData p9w 0).duration ≠ 0
    ∧ (normalizeBuildData p9w 0).endTime =
        (normalizeBuildData p9w 0).startTime +
          (normalizeBuildData p9w 0).duration * 1000 :=
  ⟨rfl, by decide, (C9_endTime_derivation p9w 0 rfl).1 (by decide)⟩

theorem countKey_pos_of_mem {db : List Build} {r : Build} {k : String × String}
    (hm : r ∈ db) (hk : buildKey r = k) : 0 < countKey db k := by
  rw [countKey, List.countP_pos_iff]
  exact ⟨r, hm, by simp [hk]⟩

theorem saveBuild_test_iff (r b : Build) :
    (r.buildId = b.buildId ∧ r.projectName = b.projectName) ↔ buildKey r = buildKey b := by
  simp [buildKey, Prod.ext_iff, and_comm]

theorem saveBuild_unique (db : List Build) (b : Build)
    (h : countKey db (buildKey b) ≤ 1) :
    countKey (saveBuild db b) (buildKey b) = 1
    ∧ ∀ r ∈ saveBuild db b, buildKey r = buildKey b → r = b := by
  induction db with
  | nil =>
    constructor
    · simp [saveBuild, countKey, List.countP_cons]
    · intro r hr _
      simp [saveBuild] at hr
      exact hr
  | cons x rest ih =>
    by_cases hc : x.buildId = b.buildId ∧ x.projectName = b.projectName
    · have hkey : buildKey x = buildKey b := (saveBuild_test_iff x b).mp hc
      have hcount : countKey (x :: rest) (buildKey b) =
          countKey rest (buildKey b) + 1 := by
        simp [countKey, List.countP_cons, hkey]
      have hrest : countKey rest (buildKey b) = 0 := by omega
      constructor
      · have hb : countKey (b :: rest) (buildKey b) =
            countKey rest (buildKey b) + 1 := by
          simp [countKey, List.countP_cons]
        simp only [saveBuild, if_pos hc]
        omega
      · intro r hr hk
        simp only [saveBuild, if_pos hc] at hr
        rcases List.mem_cons.mp hr with h1 | h1
        · exact h1
        · exact absurd (countKey_pos_of_mem h1 hk) (by omega)
    · have hkey : ¬ buildKey x = buildKey b := fun hk =>
        hc ((saveBuild_test_iff x b).mpr hk)
      have hcount : countKey (x :: rest) (buildKey b) =
          countKey rest (buildKey b) := by
        simp [countKey, List.countP_cons, hkey]
      obtain ⟨ih1, ih2⟩ := ih (by omega)
      constructor
      · simp only [saveBuild, if_neg hc]
        simpa [countKey, List.countP_cons, hkey] using ih1
      · intro r hr hk
        simp only [saveBuild, if_neg hc] at hr
        rcases List.mem_cons.mp hr with h1 | h1
        · exact absurd (h1 ▸ hk) hkey
        · exact ih2 r h1 hk

/-- C1: processing two payloads with the same `(projectName, buildId)`
key through the build upsert leaves exactly one record for that key, and
that record equals the latest payload's normalized values, provided the
store satisfies the uniqueness invariant beforehand. -/
theorem C1_build_upsert_idempotent (db : List Build) (b1 b2 : Build)
    (hk : buildKey b1 = buildKey b2)
    (h : countKey db (buildKey b2) ≤ 1) :
    countKey (saveBuild (saveBuild db b1) b2) (buildKey b2) = 1
    ∧ ∀ r ∈ saveBuild (saveBuild db b1) b2,
        buildKey r = buildKey b2 → r = b2 := by
  have h1 := saveBuild_unique db b1 (by rw [hk]; exact h)
  exact saveBuild_unique (saveBuild db b1) b2 (by rw [← hk, h1.1])

theorem C1_witness :
    countKey [b4] (buildKey bX) ≤ 1
    ∧ countKey (saveBuild (saveBuild [b4] bX) bX) (buildKey bX) = 1 :=
  ⟨by decide, (C1_build_upsert_idempotent [b4] bX bX rfl (by decide)).1⟩

theorem metricWindowMatch_iff {r : Metric} {proj period : String} {now : Nat}
    (hr : r.timestamp % 3600000 < 3599999) :
    metricWindowMatch r proj period now = true ↔
      (r.projectName = proj ∧ r.period = period ∧
        r.timestamp / 3600000 = now / 3600000) := by
  simp only [metricWindowMatch, startOfHour, decide_eq_true_eq]
  constructor
  · rintro ⟨h1, h2, h3, h4⟩
    exact ⟨h1, h2, by omega⟩
  · rintro ⟨h1, h2, h3⟩
    exact ⟨h1, h2, by omega, by omega⟩

theorem countBucket_pos_of_mem {ms : List Metric} {r : Metric}
    {k : String × String × Nat} (hm : r ∈ ms) (hk : metricBucket r = k) :
    0 < countBucket ms k := by
  rw [countBucket, List.countP_pos_iff]
  exact ⟨r, hm, by simp [hk]⟩

theorem upsertMetric_mem {ms : List Metric} {m x : Metric} {now : Nat}
    (hx : x ∈ upsertMetric ms m now) : x ∈ ms ∨ x = m := by
  induction ms with
  | nil =>
    simp [upsertMetric] at hx
    exact Or.inr hx
  | cons r rest ih =>
    by_cases hc : metricWindowMatch r m.projectName m.period now = true
    · simp only [upsertMetric, if_pos hc] at hx
      rcases List.mem_cons.mp hx with h | h
      · exact Or.inr h
      · exact Or.inl (List.mem_cons_of_mem r h)
    · simp only [upsertMetric, if_neg hc] at hx
      rcases List.mem_cons.mp hx with h | h
      · exact Or.inl (h ▸ List.mem_cons_self r rest)
      · rcases ih h with h1 | h1
        · exact Or.inl (List.mem_cons_of_mem r h1)
        · exact Or.inr h1

theorem upsertMetric_count_self {ms : List Metric} {m : Metric} {now : Nat}
    (hts : m.timestamp = now)
    (hold : ∀ r ∈ ms, r.timestamp % 3600000 < 3599999)
    (hcount : countBucket ms (metricBucket m) ≤ 1) :
    countBucket (upsertMetric ms m now) (metricBucket m) = 1 := by
  induction ms with
  | nil => simp [upsertMetric, countBucket, List.countP_cons]
  | cons r rest ih =>
    have hrts := hold r (List.mem_cons_self r rest)
    by_cases hc : metricWindowMatch r m.projectName m.period now = true
    · have hbr : metricBucket r = metricBucket m := by
        obtain ⟨h1, h2, h3⟩ := (metricWindowMatch_iff hrts).mp hc
        simp [metricBucket, h1, h2, h3, hts]
      have h01 : countBucket (r :: rest) (metricBucket m) =
          countBucket rest (metricBucket m) + 1 := by
        simp [countBucket, List.countP_cons, hbr]
      have h02 : countBucket (m :: rest) (metricBucket m) =
          countBucket rest (metricBucket m) + 1 := by
        simp [countBucket, List.countP_cons]
      simp only [upsertMetric, if_pos hc]
      omega
    · have hbr : metricBucket r ≠ metricBucket m := by
        intro heq
        apply hc
        rw [metricWindowMatch_iff hrts]
        simp only [metricBucket, Prod.ext_iff] at heq
        exact ⟨heq.1, heq.2.1, by rw [heq.2.2, hts]⟩
      have h01 : countBucket (r :: rest) (metricBucket m) =
          countBucket rest (metricBucket m) := by
        simp [countBucket, List.countP_cons, hbr]
      have h03 : countBucket (r :: upsertMetric rest m now) (metricBucket m) =
          countBucket (upsertMetric rest m now) (metricBucket m) := by
        simp [countBucket, List.countP_cons, hbr]
      have ih1 := ih (fun x hx => hold x (List.mem_cons_of_mem r hx)) (by omega)
      simp only [upsertMetric, if_neg hc]
      omega

theorem upsertMetric_count_other {ms : List Metric} {m : Metric} {now : Nat}
    {k : String × String × Nat}
    (hts : m.timestamp = now)
    (hold : ∀ r ∈ ms, r.timestamp % 3600000 < 3599999)
    (hk : k ≠ metricBucket m) :
    countBucket (upsertMetric ms m now) k = countBucket ms k := by
  induction ms with
  | nil => simp [upsertMetric, countBucket, List.countP_cons, Ne.symm hk]
  | cons r rest ih =>
    have hrts := hold r (List.mem_cons_self r rest)
    by_cases hc : metricWindowMatch r m.projectName m.period now = true
    · have hbr : metricBucket r = metricBucket m := by
        obtain ⟨h1, h2, h3⟩ := (metricWindowMatch_iff hrts).mp hc
        simp [metricBucket, h1, h2, h3, hts]
      simp only [upsertMetric, if_pos hc]
      simp [countBucket, List.countP_cons, Ne.symm hk, hbr ▸ Ne.symm hk]
    · simp only [upsertMetric, if_neg hc]
      have ih1 := ih (fun x hx => hold x (List.mem_cons_of_mem r hx))
      simp [countBucket, List.countP_cons] at ih1 ⊢
      omega

theorem calcPeriod_preserves {db : List Build} {ms : List Metric} {bd : Build}
    {period : String} {now : Nat}
    (hnow : now % 3600000 < 3599999) (hInv : MetricInv ms) :
    MetricInv (calculateMetricsForPeriod db ms bd period now) := by
  unfold calculateMetricsForPeriod
  by_cases hb : (recentBuilds db bd.projectName (getStartTimeForPeriod period now)).isEmpty
  · simpa [hb] using hInv
  · simp only [hb, Bool.false_eq_true, if_false]
    constructor
    · intro k
      by_cases hk : k = metricBucket
          { projectName := bd.projectName, period := period, timestamp := now
            stats := calculateMetrics (recentBuilds db bd.projectName
              (getStartTimeForPeriod period now)) }
      · rw [hk, upsertMetric_count_self rfl hInv.2 (hInv.1 _)]
      · rw [upsertMetric_count_other rfl hInv.2 hk]
        exact hInv.1 k
    · intro x hx
      rcases upsertMetric_mem hx with h | h
      · exact hInv.2 x h
      · rw [h]
        exact hnow

/-- C4 as stated is false at the final millisecond of an hour: the upsert
query window is `[$gte startOf('hour'), $lt endOf('hour'))` and
`endOf('hour')` is `:59:59.999`, so a Metric written at exactly that
millisecond is invisible to a second recomputation in the same clock
hour, which then inserts a second document into the same
`(project, period, hour bucket)`. -/
theorem C4_counterexample :
    countBucket (runRecomputations [b4] []
      [(b4, "1h", 3599999), (b4, "1h", 3599999)]) ("p", "1h", 0) = 2 := by
  decide

/-- C4 amended: after any sequence of recomputations whose clock values
avoid the final millisecond of their hour, at most one Metric document
exists per `(project, period, hour-aligned bucket)`: recomputation in the
same clock hour overwrites the existing document in place. -/
theorem C4_metric_bucket_invariant (db : List Build) (ms : List Metric)
    (ops : List (Build × String × Nat))
    (hops : ∀ op ∈ ops, op.2.2 % 3600000 < 3599999)
    (hInv : MetricInv ms) :
    MetricInv (runRecomputations db ms ops) := by
  induction ops generalizing ms with
  | nil => exact hInv
  | cons op rest ih =>
    simp only [runRecomputations, List.foldl_cons]
    exact ih _ (fun o ho => hops o (List.mem_cons_of_mem op ho))
      (calcPeriod_preserves (hops op (List.mem_cons_self op rest)) hInv)

theorem C4_witness :
    countBucket (runRecomputations [b4] []
      [(b4, "1h", 1000), (b4, "1h", 2000)]) ("p", "1h", 0) ≤ 1 :=
  (C4_metric_bucket_invariant [b4] [] [(b4, "1h", 1000), (b4, "1h", 2000)]
    (by decide)
    ⟨fun k => by simp [countBucket], fun m hm => by cases hm⟩).1 ("p", "1h", 0)

theorem lookupCd_setCd_self (l : List (String × Nat)) (k : String) (v : Nat) :
    lookupCd (setCd l k v) k = some v := by
  induction l with
  | nil => simp [setCd, lookupCd]
  | cons p rest ih =>
    obtain ⟨k', v'⟩ := p
    by_cases h : k' = k
    · simp [setCd, lookupCd, h]
    · simp [setCd, lookupCd, h, ih]

theorem triggerAlert_fire (svc : NotifService) (rule : Rule) (bd : Build)
    (st : EngineState) (now : Nat)
    (hfire : ∀ t, lookupCd st.cooldowns (rule.id ++ "-" ++ bd.projectName) = some t →
        jsOrNat rule.cooldownMinutes 15 ≤ (now - t) / 60000) :
    triggerAlert svc rule bd st now =
      { alerts := st.alerts ++ [createAlert rule bd now]
        attempts := st.attempts ++ sendNotifications svc (createAlert rule bd now) rule
        cooldowns := setCd st.cooldowns (rule.id ++ "-" ++ bd.projectName) now } := by
  unfold triggerAlert
  cases hlk : lookupCd st.cooldowns (rule.id ++ "-" ++ bd.projectName) with
  | none =>
    simp only [hlk]
  | some t =>
    simp only [hlk]
    rw [if_neg (Nat.not_lt.mpr (hfire t hlk))]

theorem triggerAlert_suppressed (svc : NotifService) (rule : Rule) (bd : Build)
    (st : EngineState) (now t : Nat)
    (hlk : lookupCd st.cooldowns (rule.id ++ "-" ++ bd.projectName) = some t)
    (hlt : (now - t) / 60000 < jsOrNat rule.cooldownMinutes 15) :
    triggerAlert svc rule bd st now = st := by
  unfold triggerAlert
  simp only [hlk]
  rw [if_pos hlt]

/-- C2: with a 15-minute cooldown, two dispatches for the same
`(rule, project)` key 5 minutes apart create exactly one Alert (the
second is suppressed wholesale: same state, so nothing persisted and no
notification attempted), 20 minutes apart they create two; in general a
dispatch within the cooldown window of the key's last firing leaves the
state untouched. -/
theorem C2_cooldown_gate (svc : NotifService) (rule : Rule) (bd : Build)
    (st : EngineState) (now : Nat)
    (hcd : rule.cooldownMinutes = some 15)
    (hnone : lookupCd st.cooldowns (rule.id ++ "-" ++ bd.projectName) = none) :
    (triggerAlert svc rule bd (triggerAlert svc rule bd st now)
        (now + 300000)).alerts.length = st.alerts.length + 1
    ∧ triggerAlert svc rule bd (triggerAlert svc rule bd st now) (now + 300000)
        = triggerAlert svc rule bd st now
    ∧ (triggerAlert svc rule bd (triggerAlert svc rule bd st now)
        (now + 1200000)).alerts.length = st.alerts.length + 2
    ∧ ∀ (st' : EngineState) (t0 now' : Nat),
        lookupCd st'.cooldowns (rule.id ++ "-" ++ bd.projectName) = some t0 →
        (now' - t0) / 60000 < 15 →
        triggerAlert svc rule bd st' now' = st' := by
  have hst1 := triggerAlert_fire svc rule bd st now
    (fun t ht => by rw [hnone] at ht; cases ht)
  have hl1 : lookupCd (triggerAlert svc rule bd st now).cooldowns
      (rule.id ++ "-" ++ bd.projectName) = some now := by
    rw [hst1]
    exact lookupCd_setCd_self _ _ _
  have hsup : ∀ (st' : EngineState) (t0 now' : Nat),
      lookupCd st'.cooldowns (rule.id ++ "-" ++ bd.projectName) = some t0 →
      (now' - t0) / 60000 < 15 →
      triggerAlert svc rule bd st' now' = st' := by
    intro st' t0 now' hl hlt
    exact triggerAlert_suppressed svc rule bd st' now' t0 hl
      (by rw [hcd]; exact hlt)
  have hs2 := hsup (triggerAlert svc rule bd st now) now (now + 300000) hl1
    (by omega)
  refine ⟨?_, hs2, ?_, hsup⟩
  · rw [hs2, hst1]
    simp
  · have hfire2 := triggerAlert_fire svc rule bd (triggerAlert svc rule bd st now)
      (now + 1200000)
      (fun t ht => by
        rw [hl1] at ht
        cases ht
        rw [hcd]
        show 15 ≤ (now + 1200000 - now) / 60000
        omega)
    rw [hfire2]
    simp [hst1]

theorem C2_witness :
    ruleSl.cooldownMinutes = some 15
    ∧ (triggerAlert svcOk ruleSl bX (triggerAlert svcOk ruleSl bX st0 0)
        (0 + 300000)).alerts.length = st0.alerts.length + 1 :=
  ⟨rfl, (C2_cooldown_gate svcOk ruleSl bX st0 0 rfl rfl).1⟩

/-- C10: a falsy `cooldownMinutes` (absent, null or 0) falls back to the
15-minute default via `rule.cooldownMinutes || 15`, so even a rule
configured with cooldown 0 suppresses a second dispatch for the same
`(rule, project)` key arriving within 15 minutes of the first. -/
theorem C10_falsy_cooldown_default (svc : NotifService) (rule : Rule)
    (bd : Build) (st : EngineState) (now d : Nat)
    (hcd : rule.cooldownMinutes = some 0 ∨ rule.cooldownMinutes = none)
    (hnone : lookupCd st.cooldowns (rule.id ++ "-" ++ bd.projectName) = none)
    (hd : d < 900000) :
    jsOrNat rule.cooldownMinutes 15 = 15
    ∧ triggerAlert svc rule bd (triggerAlert svc rule bd st now) (now + d)
        = triggerAlert svc rule bd st now := by
  have hj : jsOrNat rule.cooldownMinutes 15 = 15 := by
    rcases hcd with h | h <;> simp [jsOrNat, h]
  have hst1 := triggerAlert_fire svc rule bd st now
    (fun t ht => by rw [hnone] at ht; cases ht)
  have hl1 : lookupCd (triggerAlert svc rule bd st now).cooldowns
      (rule.id ++ "-" ++ bd.projectName) = some now := by
    rw [hst1]
    exact lookupCd_setCd_self _ _ _
  exact ⟨hj, triggerAlert_suppressed svc rule bd _ (now + d) now hl1
    (by rw [hj]; omega)⟩

theorem C10_witness :
    (⟨"r0", "zero cd", "warning", none, some 0, [⟨"slack", "#ci"⟩],
        ⟨"build_failure", emptyParams⟩⟩ : Rule).cooldownMinutes = some 0
    ∧ triggerAlert svcOk
        ⟨"r0", "zero cd", "warning", none, some 0, [⟨"slack", "#ci"⟩],
          ⟨"build_failure", emptyParams⟩⟩ bX
        (triggerAlert svcOk
          ⟨"r0", "zero cd", "warning", none, some 0, [⟨"slack", "#ci"⟩],
            ⟨"build_failure", emptyParams⟩⟩ bX st0 0) (0 + 60000)
      = triggerAlert svcOk
          ⟨"r0", "zero cd", "warning", none, some 0, [⟨"slack", "#ci"⟩],
            ⟨"build_failure", emptyParams⟩⟩ bX st0 0 :=
  ⟨rfl, (C10_falsy_cooldown_default svcOk _ bX st0 0 60000 (Or.inl rfl) rfl
    (by omega)).2⟩

/-- C8: a notification-channel failure never aborts the dispatch: every
configured channel is attempted in order whatever the transports do, the
persisted Alert and the cooldown update are identical under any two
transport behaviours, and the cooldown for the `(rule, project)` key is
set to the dispatch time even when every delivery throws. -/
theorem C8_channel_isolation (svc svc' : NotifService) (rule : Rule)
    (bd : Build) (st : EngineState) (now : Nat)
    (hfire : ∀ t, lookupCd st.cooldowns (rule.id ++ "-" ++ bd.projectName) = some t →
        jsOrNat rule.cooldownMinutes 15 ≤ (now - t) / 60000) :
    (sendNotifications svc (createAlert rule bd now) rule).map
        (fun a => (a.channelType, a.configuration))
      = rule.channels.map (fun ch => (ch.type, ch.configuration))
    ∧ (triggerAlert svc rule bd st now).alerts = st.alerts ++ [createAlert rule bd now]
    ∧ lookupCd (triggerAlert svc rule bd st now).cooldowns
        (rule.id ++ "-" ++ bd.projectName) = some now
    ∧ (triggerAlert svc rule bd st now).alerts
        = (triggerAlert svc' rule bd st now).alerts
    ∧ (triggerAlert svc rule bd st now).cooldowns
        = (triggerAlert svc' rule bd st now).cooldowns := by
  rw [triggerAlert_fire svc rule bd st now hfire,
    triggerAlert_fire svc' rule bd st now hfire]
  refine ⟨?_, rfl, lookupCd_setCd_self _ _ _, rfl, rfl⟩
  simp [sendNotifications, List.map_map, Function.comp_def]

theorem C8_witness :
    lookupCd (triggerAlert svcFail ruleSl bX st0 5).cooldowns
        (ruleSl.id ++ "-" ++ bX.projectName) = some 5
    ∧ (triggerAlert svcFail ruleSl bX st0 5).alerts
        = st0.alerts ++ [createAlert ruleSl bX 5]
    ∧ (triggerAlert svcFail ruleSl bX st0 5).cooldowns
        = (triggerAlert svcOk ruleSl bX st0 5).cooldowns :=
  ⟨(C8_channel_isolation svcFail svcOk ruleSl bX st0 5
      (fun t ht => by simp [st0, lookupCd] at ht)).2.2.1,
   (C8_channel_isolation svcFail svcOk ruleSl bX st0 5
      (fun t ht => by simp [st0, lookupCd] at ht)).2.1,
   (C8_channel_isolation svcFail svcOk ruleSl bX st0 5
      (fun t ht => by simp [st0, lookupCd] at ht)).2.2.2.2⟩

/-- C6: the error-rate rule fetches exactly the project's builds whose
end time lies inside the window; below the minimum build count it never
matches, and at or above it it matches exactly when the failure
percentage reaches the threshold — in particular, with threshold 50 and
minimum 3, two failures out of three match while one of five and one of
two do not. -/
theorem C6_error_rate_rule (db : List Build) (cond : Condition) (bd : Build)
    (now w minB : Nat) (th : ℚ)
    (hw : cond.parameters.timeWindowMinutes.getD 60 = w)
    (hmin : cond.parameters.minimumBuilds.getD 3 = minB)
    (hth : cond.parameters.errorRateThreshold.getD 50 = th) :
    (∀ b : Build, b ∈ recentBuilds db bd.projectName (now - w * 60000) ↔
        b ∈ db ∧ b.projectName = bd.projectName ∧ now - w * 60000 ≤ b.endTime)
    ∧ ((recentBuilds db bd.projectName (now - w * 60000)).length < minB →
        evaluateErrorRate (listStore db) cond bd now = .ok false)
    ∧ (minB ≤ (recentBuilds db bd.projectName (now - w * 60000)).length →
       0 < (recentBuilds db bd.projectName (now - w * 60000)).length →
        (evaluateErrorRate (listStore db) cond bd now = .ok true ↔
          th * (recentBuilds db bd.projectName (now - w * 60000)).length ≤
            (((recentBuilds db bd.projectName (now - w * 60000)).filter
              (fun b => b.status = "failure")).length : ℚ) * 100))
    ∧ evaluateErrorRate (listStore db6a) cond6 bd6 7200000 = .ok true
    ∧ evaluateErrorRate (listStore db6b) cond6 bd6 7200000 = .ok false
    ∧ evaluateErrorRate (listStore db6c) cond6 bd6 7200000 = .ok false := by
  refine ⟨?_, ?_, ?_, ?_, ?_, ?_⟩
  · intro b
    simp [recentBuilds, List.mem_filter]
  · intro h
    simp only [evaluateErrorRate, listStore, hw, hmin]
    rw [if_pos h]
  · intro hlen hpos
    simp only [evaluateErrorRate, listStore, hw, hmin, hth]
    rw [if_neg (Nat.not_lt.mpr hlen)]
    simp only [Except.ok.injEq, decide_eq_true_eq, ge_iff_le]
    rw [div_mul_eq_mul_div, le_div_iff₀ (by exact_mod_cast hpos)]
  · simp [evaluateErrorRate, listStore, cond6, emptyParams, bd6, db6a,
      recentBuilds, mkBuild, List.filter]
    try norm_num
  · simp [evaluateErrorRate, listStore, cond6, emptyParams, bd6, db6b,
      recentBuilds, mkBuild, List.filter]
    try norm_num
  · simp [evaluateErrorRate, listStore, cond6, emptyParams, bd6, db6c,
      recentBuilds, mkBuild, List.filter]
    try norm_num

theorem C6_witness :
    cond6.parameters.minimumBuilds.getD 3 ≤
      (recentBuilds db6a bd6.projectName (7200000 - 60 * 60000)).length
    ∧ (50 : ℚ) * (recentBuilds db6a bd6.projectName (7200000 - 60 * 60000)).length ≤
        (((recentBuilds db6a bd6.projectName (7200000 - 60 * 60000)).filter
          (fun b => b.status = "failure")).length : ℚ) * 100
    ∧ evaluateErrorRate (listStore db6a) cond6 bd6 7200000 = .ok true :=
  ⟨by simp [cond6, emptyParams, recentBuilds, db6a, bd6, mkBuild, List.filter],
   by simp [recentBuilds, db6a, bd6, mkBuild, List.filter]; try norm_num,
   (C6_error_rate_rule db6a cond6 bd6 7200000 60 3 50 rfl rfl rfl).2.2.1
     (by simp [cond6, emptyParams, recentBuilds, db6a, bd6, mkBuild, List.filter])
     (by simp [recentBuilds, db6a, bd6, mkBuild, List.filter])
     |>.mpr
     (by simp [recentBuilds, db6a, bd6, mkBuild, List.filter]; try norm_num)⟩

theorem calcMetrics_rate_eq (bs : List Build) :
    (calculateMetrics bs).successRate =
      if (calculateMetrics bs).totalBuilds = 0 then 0
      else ((calculateMetrics bs).successfulBuilds : ℚ) /
        (calculateMetrics bs).totalBuilds * 100 := by
  simp [calculateMetrics]

/-- C5: the success rate of every stored aggregate is
`successCount/count × 100` over the builds of the window, and `0`
(a genuine number, never an undefined value) when the window is empty:
this holds for `calculateMetrics` itself, for every Metric document a
period recomputation stores, and for every point of the trend series. -/
theorem C5_successRate_spec :
    (∀ bs : List Build, bs.length = 0 → (calculateMetrics bs).successRate = 0)
    ∧ (∀ bs : List Build, bs.length ≠ 0 → (calculateMetrics bs).successRate =
        ((bs.filter (fun b => b.status = "success")).length : ℚ) / bs.length * 100)
    ∧ (∀ (db : List Build) (ms : List Metric) (bd : Build) (period : String)
        (now : Nat) (m : Metric),
        m ∈ calculateMetricsForPeriod db ms bd period now →
        m ∈ ms ∨ m.stats.successRate =
          (if m.stats.totalBuilds = 0 then 0
           else (m.stats.successfulBuilds : ℚ) / m.stats.totalBuilds * 100))
    ∧ (∀ (db : List Build) (proj : Option String) (timeRange : String)
        (now : Nat) (pt : TrendPoint),
        pt ∈ trendSuccessRate db proj timeRange now →
        pt.successRate =
          (if pt.totalBuilds = 0 then 0
           else (pt.successfulBuilds : ℚ) / pt.totalBuilds * 100)) := by
  refine ⟨?_, ?_, ?_, ?_⟩
  · intro bs h
    simp [calculateMetrics, h]
  · intro bs h
    simp [calculateMetrics, h]
  · intro db ms bd period now m hm
    unfold calculateMetricsForPeriod at hm
    by_cases hb : (recentBuilds db bd.projectName
        (getStartTimeForPeriod period now)).isEmpty
    · rw [if_pos hb] at hm
      exact Or.inl hm
    · rw [if_neg hb] at hm
      rcases upsertMetric_mem hm with h | h
      · exact Or.inl h
      · right
        rw [h]
        exact calcMetrics_rate_eq _
  · intro db proj timeRange now pt hpt
    simp only [trendSuccessRate, List.mem_map] at hpt
    obtain ⟨iv, _, rfl⟩ := hpt
    exact calcMetrics_rate_eq _

theorem C5_witness :
    (calculateMetrics [bX]).successRate =
      (([bX].filter (fun b => b.status = "success")).length : ℚ) /
        ([bX] : List Build).length * 100 :=
  C5_successRate_spec.2.1 [bX] (by decide)

/-- C7: one rule's evaluation exception never affects the others — folding
the cached rules with the throwing rule present yields exactly the state
obtained without it — and a condition tag outside the six known ones
evaluates to a non-match instead of an error. -/
theorem C7_rule_isolation :
    (∀ (store : BuildStore) (svc : NotifService) (rs1 : List Rule) (r : Rule)
        (rs2 : List Rule) (bd : Build) (st : EngineState) (now : Nat) (e : String),
      evaluateRule store r bd now = .error e →
      processRules store svc (rs1 ++ r :: rs2) bd st now =
        processRules store svc (rs1 ++ rs2) bd st now)
    ∧ (∀ (store : BuildStore) (rule : Rule) (bd : Build) (now : Nat),
        rule.condition.type ∉ (["build_failure", "duration_threshold", "error_rate",
          "consecutive_failures", "test_failure_rate", "deployment_failure"] :
            List String) →
        evaluateRule store rule bd now = .ok false) := by
  constructor
  · intro store svc rs1 r rs2 bd st now e h
    simp only [processRules, List.foldl_append, List.foldl_cons, h]
  · intro store rule bd now h
    simp only [List.mem_cons, List.not_mem_nil, or_false, not_or] at h
    obtain ⟨h1, h2, h3, h4, h5, h6⟩ := h
    simp [evaluateRule, h1, h2, h3, h4, h5, h6]

theorem C7_witness :
    evaluateRule errStore ruleER bX 0 = .error "store unavailable"
    ∧ processRules errStore svcOk ([] ++ ruleER :: [ruleDF]) bX st0 0 =
        processRules errStore svcOk ([] ++ [ruleDF]) bX st0 0 :=
  ⟨rfl, C7_rule_isolation.1 errStore svcOk [] ruleER [ruleDF] bX st0 0
    "store unavailable" rfl⟩

end CICD
